import Mathlib

/-!
Shallow embedding of libnice's `NiceOutputStream` (agent/outputstream.c).

The adapter wraps a non-blocking, message-oriented agent send primitive
(`nice_agent_send_messages_nonblocking`) behind a blocking `write` call, plus
a non-blocking write, a readiness query (`is_writable`) and a stream-removed
handler that auto-closes the adapter.

The agent itself is external to this file's source; each call into
`nice_agent_send_messages_nonblocking` (always with exactly one message
covering the remaining unsent slice) is modelled as an oracle answer
`AgentSendResult` carrying the raw return value `nSent` (the C
`n_sent_messages`) and the `GError` it may set.  The documented contract of
the agent for a one-message call — it returns 1 with no error, or -1 with an
error set — is the predicate `wellFormed`; theorems about the write path
assume it for the oracle answers consumed.
-/

set_option autoImplicit false

namespace NiceOutputStream

/-- GLib-style error codes that can travel through the output-stream paths:
`G_IO_ERROR_CLOSED`, `G_IO_ERROR_WOULD_BLOCK`, `G_IO_ERROR_CANCELLED` and a
catch-all for any other (transport) error. -/
inductive GErr where
  | closed
  | wouldBlock
  | cancelled
  | other (code : Nat)
deriving DecidableEq, Repr

/-- Raw outcome of one `nice_agent_send_messages_nonblocking` call issued with
a single message: the returned `n_sent_messages` and the error it set (if
any) into the caller-supplied `GError`. -/
structure AgentSendResult where
  nSent : Int
  err : Option GErr
deriving DecidableEq, Repr

/-- Documented contract of `nice_agent_send_messages_nonblocking` when called
with exactly one message: either the message was sent (returns 1, no error)
or it failed (returns -1 with an error set). -/
def wellFormed (r : AgentSendResult) : Prop :=
  (r.nSent = 1 ∧ r.err = none) ∨ (r.nSent = -1 ∧ r.err ≠ none)

instance (r : AgentSendResult) : Decidable (wellFormed r) := by
  unfold wellFormed; infer_instance

/-- State of the write loop when it exits (`len` and `child_error` in the C
code), plus two observers: `acc`, the total bytes the agent accepted during
the call, and `nAttempts`, the number of send attempts issued. -/
structure LoopResult where
  len : Int
  childErr : Option GErr
  acc : Nat
  nAttempts : Nat
deriving DecidableEq, Repr

/-- The do/while retry loop of `nice_output_stream_write` (outputstream.c
lines 404-435).  Each iteration sends one message covering the remaining
`count - len` bytes and branches on the raw result:
`n_sent_messages == -1` with a WOULD_BLOCK error clears `child_error`,
possibly waits on the condition, and retries; `n_sent_messages > 0` sets
`len = count`; anything else sets `len = n_sent_messages`, keeps the error,
and breaks.  The loop condition is `(gsize) len < count`, so a negative `len`
also exits.  `attempts` is the finite oracle trace of agent answers; `none`
means the trace was exhausted while the call was still blocked. -/
def writeLoopGo (count : Nat) (len : Int) (acc k : Nat) :
    List AgentSendResult → Option LoopResult
  | [] => none
  | r :: rest =>
    if r.nSent = -1 ∧ r.err = some GErr.wouldBlock then
      -- EWOULDBLOCK: child_error cleared, wait, then re-test (gsize)len < count
      if 0 ≤ len ∧ len < (count : Int) then
        writeLoopGo count len acc (k + 1) rest
      else
        some ⟨len, none, acc, k + 1⟩
    else if 0 < r.nSent then
      -- success: the whole remaining slice was accepted; len = count exits
      some ⟨(count : Int), r.err, acc + ((count : Int) - len).toNat, k + 1⟩
    else
      -- other error: len = n_sent_messages; break
      some ⟨r.nSent, r.err, acc, k + 1⟩

/-- `write_cancelled_cb` (outputstream.c lines 323-332): on cancellation it
stores `G_IO_ERROR_CANCELLED` into the WriteData's error slot if that slot is
still empty (`g_cancellable_set_error_if_cancelled`). -/
def write_cancelled_cb (fired : Bool) (err0 : Option GErr) : Option GErr :=
  if fired ∧ err0 = none then some GErr.cancelled else err0

/-- Observable execution record of one `nice_output_stream_write` call:
the returned `(gssize, GError)` pair (`none` while still blocked), whether a
WriteData record was allocated, which subscriptions were made, how many send
attempts were issued and how many bytes the agent accepted. -/
structure WriteExec where
  result : Option (Int × Option GErr)
  waiterAllocated : Bool
  subWritable : Bool
  subCancel : Bool
  nAttempts : Nat
  acc : Nat
deriving DecidableEq, Repr

/-- `nice_output_stream_write` (outputstream.c lines 346-462).  Checks
closed, agent liveness, and zero length; otherwise allocates the WriteData,
subscribes the callbacks, runs the retry loop, then applies the post-loop
cancellation rule: if a cancellable was supplied, the cancel callback
recorded an error (`wdErr`), no `child_error` is pending and `len == 0`,
the recorded error is propagated with `len = -1`. -/
def nice_output_stream_write (closed agentAlive : Bool) (count : Nat)
    (cancellable : Bool) (wdErr : Option GErr)
    (attempts : List AgentSendResult) : WriteExec :=
  if closed then
    ⟨some (-1, some GErr.closed), false, false, false, 0, 0⟩
  else if agentAlive = false then
    ⟨some (-1, some GErr.closed), false, false, false, 0, 0⟩
  else if count = 0 then
    ⟨some (0, none), false, false, false, 0, 0⟩
  else
    match writeLoopGo count 0 0 0 attempts with
    | none => ⟨none, true, true, cancellable, attempts.length, 0⟩
    | some lr =>
      if cancellable ∧ wdErr ≠ none ∧ lr.childErr = none ∧ lr.len = 0 then
        ⟨some (-1, wdErr), true, true, cancellable, lr.nAttempts, lr.acc⟩
      else
        ⟨some (lr.len, lr.childErr), true, true, cancellable, lr.nAttempts, lr.acc⟩

/-- One socket source of a component, reduced to the one bit the readiness
query reads: whether `g_socket_condition_check (socket->fileno, G_IO_OUT)`
is non-zero. -/
structure NiceSocketM where
  pollOut : Bool
deriving DecidableEq, Repr

/-- The slice of a `Component` that `nice_output_stream_is_writable` reads:
whether `component->tcp` is non-NULL, whether
`pseudo_tcp_socket_can_send (component->tcp)` holds, and the component's
socket sources. -/
structure ComponentM where
  hasTcp : Bool
  tcpCanSend : Bool
  socketSources : List NiceSocketM
deriving DecidableEq, Repr

/-- The socket-source scan of `nice_output_stream_is_writable` (lines
501-509): walk the list and break at the first socket polling writable. -/
def checkSocketSources : List NiceSocketM → Bool
  | [] => false
  | s :: rest => if s.pollOut then true else checkSocketSources rest

/-- `nice_output_stream_is_writable` (outputstream.c lines 464-517).
False when closed or the agent is gone; false (with a warning) when the
component cannot be found; true when the agent is reliable and the
component's pseudo-TCP socket exists and can send; otherwise the result of
scanning the component's socket sources for one that polls writable. -/
def nice_output_stream_is_writable (closed agentAlive reliable : Bool)
    (comp : Option ComponentM) : Bool :=
  if closed then false
  else if agentAlive = false then false
  else
    match comp with
    | none => false
    | some c =>
      if reliable ∧ c.hasTcp ∧ c.tcpCanSend then true
      else checkSocketSources c.socketSources

/-- `nice_output_stream_write_nonblocking` (outputstream.c lines 519-560).
Checks closed, agent liveness and zero length; then consults the readiness
query and fails WOULD_BLOCK without a send attempt when it is false;
otherwise issues exactly one send attempt and returns
`(n_sent_messages == 1) ? count : n_sent_messages` with the error the send
set.  The second component of the pair counts the send attempts issued. -/
def nice_output_stream_write_nonblocking (closed agentAlive : Bool)
    (count : Nat) (reliable : Bool) (comp : Option ComponentM)
    (r : AgentSendResult) : (Int × Option GErr) × Nat :=
  if closed then
    ((-1, some GErr.closed), 0)
  else if agentAlive = false then
    ((-1, some GErr.closed), 0)
  else if count = 0 then
    ((0, none), 0)
  else if nice_output_stream_is_writable closed agentAlive reliable comp = false then
    ((-1, some GErr.wouldBlock), 0)
  else
    ((if r.nSent = 1 then (count : Int) else r.nSent, r.err), 1)

/-- Decision logic of `streams_removed_cb` (outputstream.c lines 618-631):
walk the identifier array until its 0 terminator; the stream is closed
exactly when the walk meets `myId` first. -/
def streams_removed_cb (streamIds : List Nat) (myId : Nat) : Bool :=
  match streamIds with
  | [] => false
  | x :: rest =>
    if x = 0 then false
    else if x = myId then true
    else streams_removed_cb rest myId

/-- The operations of the adapter that can run against its state.  Only the
explicit close and the streams-removed handler ever touch the closed flag;
the argument of `streamsRemoved` is the raw zero-terminated identifier
array delivered by the signal. -/
inductive AdapterOp where
  | write
  | writeNonblocking
  | isWritable
  | createSource
  | close
  | streamsRemoved (ids : List Nat)
deriving DecidableEq, Repr

/-- Effect of one adapter operation on the closed flag: an explicit
`g_output_stream_close` sets it; `streams_removed_cb` sets it when its scan
matches; no operation of the adapter clears it (GOutputStream has no reopen
operation). -/
def stepClosed (closed : Bool) (myId : Nat) : AdapterOp → Bool
  | AdapterOp.close => true
  | AdapterOp.streamsRemoved ids => closed || streams_removed_cb ids myId
  | _ => closed

/-- Closed flag after a sequence of adapter operations. -/
def runOps (closed : Bool) (myId : Nat) : List AdapterOp → Bool
  | [] => closed
  | op :: rest => runOps (stepClosed closed myId op) myId rest

/-! Helper lemmas shared by the claim theorems. -/

/-- The socket-source scan succeeds exactly when some socket polls writable. -/
theorem checkSocketSources_eq_true_iff (l : List NiceSocketM) :
    checkSocketSources l = true ↔ ∃ s ∈ l, s.pollOut = true := by
  induction l with
  | nil => simp [checkSocketSources]
  | cons s rest ih =>
    by_cases h : s.pollOut = true
    · simp [checkSocketSources, h]
    · simp only [checkSocketSources, if_neg h, ih, List.mem_cons]
      constructor
      · rintro ⟨x, hx, hp⟩
        exact ⟨x, Or.inr hx, hp⟩
      · rintro ⟨x, hx | hx, hp⟩
        · exact absurd (hx ▸ hp) h
        · exact ⟨x, hx, hp⟩

/-- The stream-removed scan closes exactly when the adapter's id occurs among
the identifiers strictly before the first 0 entry. -/
theorem streams_removed_cb_eq_true_iff (ids : List Nat) (myId : Nat) :
    streams_removed_cb ids myId = true ↔
      myId ∈ ids.takeWhile (fun i => i != 0) := by
  induction ids with
  | nil => simp [streams_removed_cb]
  | cons x rest ih =>
    by_cases h0 : x = 0
    · subst h0
      simp [streams_removed_cb, List.takeWhile_cons]
    · by_cases hm : x = myId
      · subst hm
        simp [streams_removed_cb, List.takeWhile_cons, h0]
      · have hm2 : ¬ myId = x := fun h => hm h.symm
        simp [streams_removed_cb, List.takeWhile_cons, h0, hm, ih, hm2]

/-- Everything after a 0 entry is irrelevant to the stream-removed scan. -/
theorem streams_removed_cb_append_zero (pre suf : List Nat) (myId : Nat) :
    streams_removed_cb (pre ++ 0 :: suf) myId = streams_removed_cb pre myId := by
  induction pre with
  | nil => simp [streams_removed_cb]
  | cons x rest ih =>
    simp only [List.cons_append, streams_removed_cb, List.append_eq, ih]

/-- Once the closed flag is set, no single adapter operation clears it. -/
theorem stepClosed_true (myId : Nat) (op : AdapterOp) :
    stepClosed true myId op = true := by
  cases op <;> simp [stepClosed]

/-- Once the closed flag is set, no sequence of adapter operations clears it. -/
theorem runOps_true (myId : Nat) (ops : List AdapterOp) :
    runOps true myId ops = true := by
  induction ops with
  | nil => rfl
  | cons op rest ih => simp only [runOps, stepClosed_true, ih]

/-- Possible terminal states of the retry loop when every oracle answer obeys
the agent contract: either the trace is exhausted while blocked, or the whole
buffer was accepted (`len = count`, no error), or a non-WouldBlock error
stopped the loop with nothing accepted (`len = -1`). -/
theorem writeLoopGo_spec (count : Nat) (hc : 0 < count)
    (attempts : List AgentSendResult) (k : Nat)
    (hwf : ∀ r ∈ attempts, wellFormed r) :
    writeLoopGo count 0 0 k attempts = none ∨
    (∃ j, writeLoopGo count 0 0 k attempts =
        some ⟨(count : Int), none, count, j⟩) ∨
    (∃ j e, e ≠ GErr.wouldBlock ∧
      writeLoopGo count 0 0 k attempts = some ⟨-1, some e, 0, j⟩) := by
  induction attempts generalizing k with
  | nil => exact Or.inl rfl
  | cons r rest ih =>
    have hr := hwf r (List.mem_cons_self r rest)
    have hrest : ∀ x ∈ rest, wellFormed x :=
      fun x hx => hwf x (List.mem_cons_of_mem r hx)
    by_cases h1 : r.nSent = -1 ∧ r.err = some GErr.wouldBlock
    · have hcond : (0 : Int) ≤ 0 ∧ (0 : Int) < (count : Int) := by
        constructor
        · exact le_refl _
        · exact_mod_cast hc
      rw [writeLoopGo, if_pos h1, if_pos hcond]
      exact ih (k + 1) hrest
    · rcases hr with ⟨hs, he⟩ | ⟨hs, he⟩
      · have hpos : 0 < r.nSent := by omega
        have hacc : 0 + ((count : Int) - 0).toNat = count := by omega
        rw [writeLoopGo, if_neg h1, if_pos hpos, he, hacc]
        exact Or.inr (Or.inl ⟨k + 1, rfl⟩)
      · obtain ⟨e, hee⟩ := Option.ne_none_iff_exists'.1 he
        have hewb : e ≠ GErr.wouldBlock := by
          intro hwb
          exact h1 ⟨hs, by rw [hee, hwb]⟩
        have hpos : ¬ 0 < r.nSent := by omega
        rw [writeLoopGo, if_neg h1, if_neg hpos, hs, hee]
        exact Or.inr (Or.inr ⟨k + 1, e, hewb, rfl⟩)

/-- Possible results of a blocking write on an open adapter with a live agent
and a non-empty buffer, when the oracle answers obey the agent contract:
still blocked with nothing accepted, or the full count returned with no
error, or `-1` with a non-WouldBlock error and nothing accepted. -/
theorem write_spec (count : Nat) (cancellable : Bool) (wdErr : Option GErr)
    (attempts : List AgentSendResult) (hc : count ≠ 0)
    (hwf : ∀ r ∈ attempts, wellFormed r) :
    ((nice_output_stream_write false true count cancellable wdErr attempts).result
        = none ∧
      (nice_output_stream_write false true count cancellable wdErr attempts).acc
        = 0) ∨
    ((nice_output_stream_write false true count cancellable wdErr attempts).result
        = some ((count : Int), none) ∧
      (nice_output_stream_write false true count cancellable wdErr attempts).acc
        = count) ∨
    (∃ e, e ≠ GErr.wouldBlock ∧
      (nice_output_stream_write false true count cancellable wdErr attempts).result
        = some (-1, some e) ∧
      (nice_output_stream_write false true count cancellable wdErr attempts).acc
        = 0) := by
  have hpos : 0 < count := Nat.pos_of_ne_zero hc
  rcases writeLoopGo_spec count hpos attempts 0 hwf with h | ⟨j, h⟩ | ⟨j, e, hewb, h⟩
  · left
    simp [nice_output_stream_write, hc, h]
  · right; left
    have hlen : ((count : Int)) ≠ 0 := by exact_mod_cast hc
    simp [nice_output_stream_write, hc, h, hlen]
  · right; right
    refine ⟨e, hewb, ?_, ?_⟩ <;> simp [nice_output_stream_write, hc, h]

/-! Claim theorems. -/

/-- Claim C1: for a blocking write on an open adapter with a live agent and a
non-empty buffer, under the agent contract, whenever the call reports an
error the agent accepted zero bytes during the call and the returned length
is the error value -1; and whenever k > 0 bytes were accepted by the call's
send attempts, the call returns exactly k with no error — prior bytes are
never un-sent or discarded, so a non-WouldBlock error is reported only when
zero bytes were accepted. -/
theorem C1_error_reported_only_when_zero_accepted
    (count : Nat) (cancellable : Bool) (wdErr : Option GErr)
    (attempts : List AgentSendResult) (ex : WriteExec)
    (hc : count ≠ 0) (hwf : ∀ r ∈ attempts, wellFormed r)
    (hex : ex = nice_output_stream_write false true count cancellable wdErr
        attempts) :
    (∀ len e, ex.result = some (len, some e) → ex.acc = 0 ∧ len = -1) ∧
    (ex.acc ≠ 0 → ex.result = some ((ex.acc : Int), none)) := by
  subst hex
  rcases write_spec count cancellable wdErr attempts hc hwf with
    ⟨h, ha⟩ | ⟨h, ha⟩ | ⟨e, hewb, h, ha⟩
  · constructor
    · intro len e hle
      rw [h] at hle
      cases hle
    · intro hacc
      exact absurd ha hacc
  · constructor
    · intro len e hle
      rw [h] at hle
      simp at hle
    · intro _
      rw [h, ha]
  · constructor
    · intro len e' hle
      rw [h] at hle
      simp only [Option.some_inj, Prod.mk.injEq] at hle
      exact ⟨ha, hle.1.symm⟩
    · intro hacc
      exact absurd ha hacc

/-- Claim C1 witness: a 1-byte write whose single send attempt fails with a
transport error accepts nothing and reports the error as -1. -/
theorem C1_error_reported_only_when_zero_accepted_witness :
    (∀ len e,
      (nice_output_stream_write false true 1 false none
        [⟨-1, some (GErr.other 7)⟩]).result = some (len, some e) →
      (nice_output_stream_write false true 1 false none
        [⟨-1, some (GErr.other 7)⟩]).acc = 0 ∧ len = -1) ∧
    ((nice_output_stream_write false true 1 false none
        [⟨-1, some (GErr.other 7)⟩]).acc ≠ 0 →
      (nice_output_stream_write false true 1 false none
        [⟨-1, some (GErr.other 7)⟩]).result
        = some (((nice_output_stream_write false true 1 false none
            [⟨-1, some (GErr.other 7)⟩]).acc : Int), none)) :=
  C1_error_reported_only_when_zero_accepted 1 false none
    [⟨-1, some (GErr.other 7)⟩]
    (nice_output_stream_write false true 1 false none [⟨-1, some (GErr.other 7)⟩])
    (by decide) (by decide) rfl

/-- Claim C2: a send attempt answered with success accepts the whole
remaining slice — n = count - len > 0 bytes — and the loop advances the sent
offset by exactly those n bytes, reaching count, so the loop runs until the
whole buffer is sent; concretely, for a 5-byte input where the agent blocks
once and then accepts the remaining bytes, the blocking write returns 5
after two attempts, with all 5 bytes accepted. -/
theorem C2_success_advances_offset_by_accepted_bytes
    (count : Nat) (len : Int) (acc k : Nat) (r : AgentSendResult)
    (rest : List AgentSendResult)
    (_h0 : 0 ≤ len) (h1 : len < (count : Int)) (hn : 0 < r.nSent) :
    (∃ n : Nat, 0 < n ∧ len + (n : Int) = (count : Int) ∧
      writeLoopGo count len acc k (r :: rest) =
        some ⟨len + (n : Int), r.err, acc + n, k + 1⟩) ∧
    (nice_output_stream_write false true 5 false none
        [⟨-1, some GErr.wouldBlock⟩, ⟨1, none⟩]).result = some (5, none) ∧
    (nice_output_stream_write false true 5 false none
        [⟨-1, some GErr.wouldBlock⟩, ⟨1, none⟩]).acc = 5 ∧
    (nice_output_stream_write false true 5 false none
        [⟨-1, some GErr.wouldBlock⟩, ⟨1, none⟩]).nAttempts = 2 := by
  refine ⟨⟨((count : Int) - len).toNat, by omega, by omega, ?_⟩,
    by decide, by decide, by decide⟩
  have hwb : ¬ (r.nSent = -1 ∧ r.err = some GErr.wouldBlock) := by
    intro h
    omega
  have hlen : len + ((((count : Int) - len).toNat : Nat) : Int) = (count : Int) := by
    omega
  rw [writeLoopGo, if_neg hwb, if_pos hn, hlen]

/-- Claim C2 witness: a successful attempt on a fresh 5-byte write accepts
all 5 bytes and advances the offset from 0 to 5. -/
theorem C2_success_advances_offset_by_accepted_bytes_witness :
    (∃ n : Nat, 0 < n ∧ (0 : Int) + (n : Int) = (5 : Int) ∧
      writeLoopGo 5 0 0 0 [⟨1, none⟩] =
        some ⟨0 + (n : Int), (⟨1, none⟩ : AgentSendResult).err, 0 + n, 0 + 1⟩) ∧
    (nice_output_stream_write false true 5 false none
        [⟨-1, some GErr.wouldBlock⟩, ⟨1, none⟩]).result = some (5, none) ∧
    (nice_output_stream_write false true 5 false none
        [⟨-1, some GErr.wouldBlock⟩, ⟨1, none⟩]).acc = 5 ∧
    (nice_output_stream_write false true 5 false none
        [⟨-1, some GErr.wouldBlock⟩, ⟨1, none⟩]).nAttempts = 2 :=
  C2_success_advances_offset_by_accepted_bytes 5 0 0 0 ⟨1, none⟩ []
    (by decide) (by decide) (by decide)

/-- Claim C3: any returned result of a blocking write with count > 0, under
the agent contract, carries an error exactly when the returned length is the
error value -1, and the returned length is never a bare 0 — the two terminal
assertions of the write path. -/
theorem C3_terminal_assertions
    (closed agentAlive : Bool) (count : Nat) (cancellable : Bool)
    (wdErr : Option GErr) (attempts : List AgentSendResult)
    (len : Int) (e : Option GErr)
    (hc : count ≠ 0) (hwf : ∀ r ∈ attempts, wellFormed r)
    (hres : (nice_output_stream_write closed agentAlive count cancellable wdErr
        attempts).result = some (len, e)) :
    (e ≠ none ↔ len = -1) ∧ len ≠ 0 := by
  cases closed
  · cases agentAlive
    · simp [nice_output_stream_write] at hres
      obtain ⟨h1, h2⟩ := hres
      subst h1; subst h2
      refine ⟨⟨fun _ => rfl, fun _ => by simp⟩, by norm_num⟩
    · rcases write_spec count cancellable wdErr attempts hc hwf with
        ⟨h, _⟩ | ⟨h, _⟩ | ⟨e', hewb, h, _⟩
      · rw [h] at hres
        cases hres
      · rw [h] at hres
        simp only [Option.some_inj, Prod.mk.injEq] at hres
        obtain ⟨h1, h2⟩ := hres
        subst h1; subst h2
        have hlen : ((count : Int)) ≠ 0 := by exact_mod_cast hc
        refine ⟨⟨fun hne => absurd rfl hne, fun hm1 => absurd hm1 (by omega)⟩, hlen⟩
      · rw [h] at hres
        simp only [Option.some_inj, Prod.mk.injEq] at hres
        obtain ⟨h1, h2⟩ := hres
        subst h1; subst h2
        refine ⟨⟨fun _ => rfl, fun _ => by simp⟩, by norm_num⟩
  · simp [nice_output_stream_write] at hres
    obtain ⟨h1, h2⟩ := hres
    subst h1; subst h2
    refine ⟨⟨fun _ => rfl, fun _ => by simp⟩, by norm_num⟩

/-- Claim C3 witness: a 1-byte write accepted on the first attempt returns
length 1 with no error, satisfying both terminal assertions. -/
theorem C3_terminal_assertions_witness :
    ((none : Option GErr) ≠ none ↔ (1 : Int) = -1) ∧ (1 : Int) ≠ 0 :=
  C3_terminal_assertions false true 1 false none [⟨1, none⟩] 1 none
    (by decide) (by decide) (by decide)

/-- Claim C4: for a blocking write with a cancellation token that has fired
(the cancel callback recorded CancelledError in the Waiter), under the agent
contract: a CancelledError result implies zero bytes were accepted in the
call; if k > 0 bytes were accepted the call returns k with no error, the
cancellation being ignored; and any returned result with zero bytes accepted
carries some error, never a bare success. -/
theorem C4_cancellation_only_on_zero_progress
    (count : Nat) (attempts : List AgentSendResult) (ex : WriteExec)
    (hc : count ≠ 0) (hwf : ∀ r ∈ attempts, wellFormed r)
    (hex : ex = nice_output_stream_write false true count true
        (write_cancelled_cb true none) attempts) :
    (∀ len, ex.result = some (len, some GErr.cancelled) →
      ex.acc = 0 ∧ len = -1) ∧
    (ex.acc ≠ 0 → ex.result = some ((ex.acc : Int), none)) ∧
    (∀ len e, ex.result = some (len, e) → ex.acc = 0 → e ≠ none) := by
  subst hex
  rcases write_spec count true (write_cancelled_cb true none) attempts hc hwf with
    ⟨h, ha⟩ | ⟨h, ha⟩ | ⟨e, hewb, h, ha⟩
  · refine ⟨?_, ?_, ?_⟩
    · intro len hle
      rw [h] at hle
      cases hle
    · intro hacc
      exact absurd ha hacc
    · intro len e hle
      rw [h] at hle
      cases hle
  · refine ⟨?_, ?_, ?_⟩
    · intro len hle
      rw [h] at hle
      simp at hle
    · intro _
      rw [h, ha]
    · intro len e hle hacc
      rw [ha] at hacc
      exact absurd hacc hc
  · refine ⟨?_, ?_, ?_⟩
    · intro len hle
      rw [h] at hle
      simp only [Option.some_inj, Prod.mk.injEq] at hle
      exact ⟨ha, hle.1.symm⟩
    · intro hacc
      exact absurd ha hacc
    · intro len e' hle _
      rw [h] at hle
      simp only [Option.some_inj, Prod.mk.injEq] at hle
      rw [← hle.2]
      simp

/-- Claim C4 witness: a fired token with no progress — the woken attempt
fails with CancelledError — yields CancelledError with zero bytes accepted. -/
theorem C4_cancellation_only_on_zero_progress_witness :
    (∀ len,
      (nice_output_stream_write false true 1 true
        (write_cancelled_cb true none) [⟨-1, some GErr.cancelled⟩]).result
        = some (len, some GErr.cancelled) →
      (nice_output_stream_write false true 1 true
        (write_cancelled_cb true none) [⟨-1, some GErr.cancelled⟩]).acc = 0 ∧
      len = -1) ∧
    ((nice_output_stream_write false true 1 true
        (write_cancelled_cb true none) [⟨-1, some GErr.cancelled⟩]).acc ≠ 0 →
      (nice_output_stream_write false true 1 true
        (write_cancelled_cb true none) [⟨-1, some GErr.cancelled⟩]).result
        = some (((nice_output_stream_write false true 1 true
            (write_cancelled_cb true none) [⟨-1, some GErr.cancelled⟩]).acc : Int),
            none)) ∧
    (∀ len e,
      (nice_output_stream_write false true 1 true
        (write_cancelled_cb true none) [⟨-1, some GErr.cancelled⟩]).result
        = some (len, e) →
      (nice_output_stream_write false true 1 true
        (write_cancelled_cb true none) [⟨-1, some GErr.cancelled⟩]).acc = 0 →
      e ≠ none) :=
  C4_cancellation_only_on_zero_progress 1 [⟨-1, some GErr.cancelled⟩]
    (nice_output_stream_write false true 1 true (write_cancelled_cb true none)
      [⟨-1, some GErr.cancelled⟩])
    (by decide) (by decide) rfl

/-- Claim C5: on a closed adapter, the blocking write and the non-blocking
write fail with ClosedError for every buffer length (length 0 included,
since the closed check precedes the zero-length check), and the readiness
query returns false — all regardless of the agent's state. -/
theorem C5_closed_contract (agentAlive : Bool) (count : Nat)
    (cancellable : Bool) (wdErr : Option GErr)
    (attempts : List AgentSendResult) (reliable : Bool)
    (comp : Option ComponentM) (r : AgentSendResult) :
    (nice_output_stream_write true agentAlive count cancellable wdErr
        attempts).result = some (-1, some GErr.closed) ∧
    (nice_output_stream_write_nonblocking true agentAlive count reliable comp
        r).1 = (-1, some GErr.closed) ∧
    nice_output_stream_is_writable true agentAlive reliable comp = false :=
  ⟨rfl, rfl, rfl⟩

/-- Claim C6: a non-blocking write on an open adapter with a live agent and a
non-zero length fails with WouldBlock and issues no send attempt when the
readiness query is false; when it is true, it issues exactly one send attempt
and returns that attempt's outcome verbatim — the full count for a sent
message, or the attempt's own error. -/
theorem C6_nonblocking_single_attempt
    (count : Nat) (reliable : Bool) (comp : Option ComponentM)
    (r : AgentSendResult)
    (hc : count ≠ 0) (hwf : wellFormed r) :
    (nice_output_stream_is_writable false true reliable comp = false →
      nice_output_stream_write_nonblocking false true count reliable comp r
        = ((-1, some GErr.wouldBlock), 0)) ∧
    (nice_output_stream_is_writable false true reliable comp = true →
      (nice_output_stream_write_nonblocking false true count reliable comp
        r).2 = 1 ∧
      ((r.nSent = 1 ∧ r.err = none ∧
        (nice_output_stream_write_nonblocking false true count reliable comp
          r).1 = ((count : Int), none)) ∨
       (∃ e, r.nSent = -1 ∧ r.err = some e ∧
        (nice_output_stream_write_nonblocking false true count reliable comp
          r).1 = (-1, some e)))) := by
  constructor
  · intro hw
    simp [nice_output_stream_write_nonblocking, hc, hw]
  · intro hw
    rcases hwf with ⟨hs, he⟩ | ⟨hs, he⟩
    · refine ⟨?_, Or.inl ⟨hs, he, ?_⟩⟩ <;>
        simp [nice_output_stream_write_nonblocking, hc, hw, hs, he]
    · obtain ⟨e, hee⟩ := Option.ne_none_iff_exists'.1 he
      refine ⟨?_, Or.inr ⟨e, hs, hee, ?_⟩⟩ <;>
        simp [nice_output_stream_write_nonblocking, hc, hw, hs, hee]

/-- Claim C6 witness: with a writable component (pseudo-TCP can send), a
3-byte non-blocking write issues one attempt and returns 3. -/
theorem C6_nonblocking_single_attempt_witness :
    (nice_output_stream_is_writable false true true
        (some ⟨true, true, []⟩) = false →
      nice_output_stream_write_nonblocking false true 3 true
        (some ⟨true, true, []⟩) ⟨1, none⟩ = ((-1, some GErr.wouldBlock), 0)) ∧
    (nice_output_stream_is_writable false true true
        (some ⟨true, true, []⟩) = true →
      (nice_output_stream_write_nonblocking false true 3 true
        (some ⟨true, true, []⟩) ⟨1, none⟩).2 = 1 ∧
      (((⟨1, none⟩ : AgentSendResult).nSent = 1 ∧
        (⟨1, none⟩ : AgentSendResult).err = none ∧
        (nice_output_stream_write_nonblocking false true 3 true
          (some ⟨true, true, []⟩) ⟨1, none⟩).1 = ((3 : Int), none)) ∨
       (∃ e, (⟨1, none⟩ : AgentSendResult).nSent = -1 ∧
        (⟨1, none⟩ : AgentSendResult).err = some e ∧
        (nice_output_stream_write_nonblocking false true 3 true
          (some ⟨true, true, []⟩) ⟨1, none⟩).1 = (-1, some e)))) :=
  C6_nonblocking_single_attempt 3 true (some ⟨true, true, []⟩) ⟨1, none⟩
    (by decide) (by decide)

/-- Claim C7: on an open adapter with a live agent, the readiness query is
true exactly when the component's embedded reliable-transport layer (a
reliable agent with a pseudo-TCP socket present) can currently accept more
data, or some raw socket bound to the component currently polls writable;
and it is false when the component cannot be found. -/
theorem C7_is_writable_characterisation (reliable : Bool) (c : ComponentM) :
    (nice_output_stream_is_writable false true reliable (some c) = true ↔
      (reliable = true ∧ c.hasTcp = true ∧ c.tcpCanSend = true) ∨
        ∃ s ∈ c.socketSources, s.pollOut = true) ∧
    nice_output_stream_is_writable false true reliable none = false := by
  refine ⟨?_, rfl⟩
  by_cases h : reliable = true ∧ c.hasTcp = true ∧ c.tcpCanSend = true
  · simp [nice_output_stream_is_writable, h]
  · simp [nice_output_stream_is_writable, h, checkSocketSources_eq_true_iff]

/-- Claim C8: delivering a streams-removed notification whose identifiers
(the entries before the terminating 0) include the adapter's stream id
closes the adapter; and the closed flag is monotonic — once set, no single
operation and no sequence of operations ever clears it. -/
theorem C8_streams_removed_closes_and_closed_is_monotonic
    (closed : Bool) (myId : Nat) (ids : List Nat) (ops : List AdapterOp)
    (hmem : myId ∈ ids.takeWhile (fun i => i != 0)) :
    stepClosed closed myId (AdapterOp.streamsRemoved ids) = true ∧
    (∀ op, stepClosed true myId op = true) ∧
    runOps true myId ops = true := by
  refine ⟨?_, fun op => stepClosed_true myId op, runOps_true myId ops⟩
  have h : streams_removed_cb ids myId = true :=
    (streams_removed_cb_eq_true_iff ids myId).2 hmem
  simp [stepClosed, h]

/-- Claim C8 witness: removing streams [1] (array [1, 0]) closes the adapter
for stream id 1, and a closed adapter stays closed across further
operations. -/
theorem C8_streams_removed_closes_and_closed_is_monotonic_witness :
    stepClosed false 1 (AdapterOp.streamsRemoved [1, 0]) = true ∧
    (∀ op, stepClosed true 1 op = true) ∧
    runOps true 1 [AdapterOp.write, AdapterOp.isWritable] = true :=
  C8_streams_removed_closes_and_closed_is_monotonic false 1 [1, 0]
    [AdapterOp.write, AdapterOp.isWritable] (by decide)

/-- Claim C9: a zero-length blocking write on an open adapter with a live
agent returns 0 with no error, allocates no WriteData record, makes no
writability or cancellation subscription, and issues no send attempt. -/
theorem C9_zero_length_write_has_no_effect (cancellable : Bool)
    (wdErr : Option GErr) (attempts : List AgentSendResult) :
    nice_output_stream_write false true 0 cancellable wdErr attempts =
      ⟨some (0, none), false, false, false, 0, 0⟩ :=
  rfl

/-- Claim C10: the stream-removed handler treats the identifier array as
zero-terminated — it closes exactly when the adapter's id occurs strictly
before the first 0 entry, the entries after a 0 entry never influence the
outcome, and the id value 0 itself never matches. -/
theorem C10_scan_stops_at_zero_terminator
    (ids pre sufA sufB : List Nat) (myId : Nat) :
    (streams_removed_cb ids myId = true ↔
      myId ∈ ids.takeWhile (fun i => i != 0)) ∧
    streams_removed_cb (pre ++ 0 :: sufA) myId
      = streams_removed_cb (pre ++ 0 :: sufB) myId ∧
    streams_removed_cb ids 0 = false := by
  refine ⟨streams_removed_cb_eq_true_iff ids myId, ?_, ?_⟩
  · rw [streams_removed_cb_append_zero, streams_removed_cb_append_zero]
  · cases hb : streams_removed_cb ids 0
    · rfl
    · have hmem := (streams_removed_cb_eq_true_iff ids 0).1 hb
      have h0 := List.mem_takeWhile_imp hmem
      simp at h0

end NiceOutputStream
